import Mathlib

/-!
# LlamaSwiftC: the two C headers

`Sources/LlamaSwiftC/ggml-build-info.h` and `Sources/LlamaSwiftC/llama_bridge.h`
are embedded line by line as lists of `Line`: conditional directives,
`#define`, `#include`, linkage brackets and function declarations.  A small
preprocessor (`ppStep`, `preprocess`) runs a header over a state holding the
object-like definitions in force and the lines emitted so far.
-/

namespace LlamaSwiftC

/-! ## C declarations -/

/-- Base type names used by the declarations of `llama_bridge.h`. -/
inductive CBase where
  | void
  | char
  | int32_t
  | bool
  deriving DecidableEq, Repr

/-- A C type as written in the header: optional `const`, a base type name and
the number of `*` that follow it. -/
structure CType where
  isConst : Bool
  base : CBase
  stars : Nat
  deriving DecidableEq, Repr

/-- The type `void`. -/
def tVoid : CType := ⟨false, .void, 0⟩
/-- The type `void*`. -/
def tVoidPtr : CType := ⟨false, .void, 1⟩
/-- The type `const char*`. -/
def tConstCharPtr : CType := ⟨true, .char, 1⟩
/-- The type `int32_t`. -/
def tInt32 : CType := ⟨false, .int32_t, 0⟩
/-- The type `int32_t*`. -/
def tInt32Ptr : CType := ⟨false, .int32_t, 1⟩
/-- The type `const int32_t*`. -/
def tConstInt32Ptr : CType := ⟨true, .int32_t, 1⟩
/-- The type `bool`. -/
def tBool : CType := ⟨false, .bool, 0⟩

/-- One parameter of a declaration: its type and its name. -/
structure Param where
  type : CType
  name : String
  deriving DecidableEq, Repr

/-- A function declaration `ret name(params);`.  A parameter list written
`(void)` is the empty list. -/
structure FunDecl where
  ret : CType
  name : String
  params : List Param
  deriving DecidableEq, Repr

/-! ## Header lines and the preprocessor -/

/-- A preprocessing token of a replacement list. -/
inductive PPToken where
  | stringLit (s : String)
  | other (s : String)
  deriving DecidableEq, Repr

/-- One line of a header.  Comment lines and blank lines are dropped. -/
inductive Line where
  | ifndef (name : String)
  | ifdef (name : String)
  | endif
  | define (name : String) (body : List PPToken)
  | include (header : String)
  | linkageBegin (lang : String)
  | linkageEnd
  | decl (d : FunDecl)
  deriving DecidableEq, Repr

/-- Preprocessor state: the definitions in force (most recent first) and the
non-directive lines emitted so far, in order. -/
structure PPState where
  defines : List (String × List PPToken)
  output : List Line
  deriving DecidableEq, Repr

/-- The replacement list of `name`, if `name` is defined. -/
def PPState.body (st : PPState) (name : String) : Option (List PPToken) :=
  st.defines.lookup name

/-- Whether `name` is defined (`#ifdef name`). -/
def PPState.isDefined (st : PPState) (name : String) : Bool :=
  (st.body name).isSome

/-- Effect of `#define name body`. -/
def PPState.addDefine (st : PPState) (name : String) (body : List PPToken) : PPState :=
  { st with defines := (name, body) :: st.defines }

/-- Effect of a line that is not a directive: it is emitted, as written
(replacement of defined names inside an emitted line is not modelled). -/
def PPState.emit (st : PPState) (l : Line) : PPState :=
  { st with output := st.output ++ [l] }

/-- Whether the innermost open conditional group is being kept.  Each entry of
the stack already accounts for the groups around it. -/
def isActive (stack : List Bool) : Bool :=
  stack.headD true

/-- One line of preprocessing.  `inc` is the effect of processing an included
header (the system headers are not part of the repository); the second
component is the stack of open conditional groups. -/
def ppStep (inc : String → PPState → PPState) (acc : PPState × List Bool) (l : Line) :
    PPState × List Bool :=
  let st := acc.1
  let stack := acc.2
  match l with
  | .ifndef n => (st, (isActive stack && !st.isDefined n) :: stack)
  | .ifdef n => (st, (isActive stack && st.isDefined n) :: stack)
  | .endif => (st, stack.tail)
  | .define n b => (if isActive stack then st.addDefine n b else st, stack)
  | .include h => (if isActive stack then inc h st else st, stack)
  | l => (if isActive stack then st.emit l else st, stack)

/-- Process a whole header starting from state `st`. -/
def preprocess (inc : String → PPState → PPState) (header : List Line) (st : PPState) :
    PPState :=
  (header.foldl (ppStep inc) (st, [])).1

/-- The function declarations among a list of lines. -/
def declaredFunctions (ls : List Line) : List FunDecl :=
  ls.filterMap fun l =>
    match l with
    | .decl d => some d
    | _ => none

/-- The names of the functions declared among a list of lines. -/
def declaredNames (ls : List Line) : List String :=
  (declaredFunctions ls).map (·.name)

/-! ## `ggml-build-info.h` -/

/-- Lines 9-21 of `ggml-build-info.h`. -/
def ggml_build_info_h : List Line :=
  [ Line.ifndef "GGML_BUILD_INFO_H",
    .define "GGML_BUILD_INFO_H" [],
    Line.ifndef "GGML_VERSION",
    .define "GGML_VERSION" [.stringLit "1.0.0"],
    .endif,
    Line.ifndef "GGML_COMMIT",
    .define "GGML_COMMIT" [.stringLit "unknown"],
    .endif,
    .endif ]

/-- `ggml-build-info.h` includes nothing, so the include effect is never used. -/
def noInclude : String → PPState → PPState := fun _ st => st

/-- A stand-in for the system headers, for running the preprocessor on
concrete inputs: `stdbool.h` defines `__bool_true_false_are_defined` as 1,
any other header defines nothing. -/
def toyInclude : String → PPState → PPState := fun h st =>
  if h = "stdbool.h" then st.addDefine "__bool_true_false_are_defined" [.other "1"] else st

/-! ## `llama_bridge.h` -/

/-- Lines 8-44 of `llama_bridge.h`. -/
def llama_bridge_h : List Line :=
  [ Line.ifndef "llama_bridge_h",
    .define "llama_bridge_h" [],
    .include "stdbool.h",
    .include "stdint.h",
    Line.ifdef "__cplusplus",
    .linkageBegin "C",
    .endif,
    .decl ⟨tVoid, "llama_bridge_backend_init", []⟩,
    .decl ⟨tVoid, "llama_bridge_backend_free", []⟩,
    .decl ⟨tVoidPtr, "llama_bridge_load_model", [⟨tConstCharPtr, "model_path"⟩]⟩,
    .decl ⟨tVoid, "llama_bridge_free_model", [⟨tVoidPtr, "model"⟩]⟩,
    .decl ⟨tVoidPtr, "llama_bridge_create_context",
      [⟨tVoidPtr, "model"⟩, ⟨tInt32, "n_ctx"⟩, ⟨tInt32, "n_threads"⟩]⟩,
    .decl ⟨tVoid, "llama_bridge_free_context", [⟨tVoidPtr, "context"⟩]⟩,
    .decl ⟨tInt32, "llama_bridge_tokenize",
      [⟨tVoidPtr, "model"⟩, ⟨tConstCharPtr, "text"⟩, ⟨tInt32Ptr, "tokens"⟩,
       ⟨tInt32, "n_max_tokens"⟩, ⟨tBool, "add_bos"⟩]⟩,
    .decl ⟨tInt32, "llama_bridge_eval",
      [⟨tVoidPtr, "context"⟩, ⟨tConstInt32Ptr, "tokens"⟩, ⟨tInt32, "n_tokens"⟩,
       ⟨tInt32, "n_past"⟩]⟩,
    .decl ⟨tInt32, "llama_bridge_sample_token", [⟨tVoidPtr, "context"⟩]⟩,
    .decl ⟨tConstCharPtr, "llama_bridge_token_to_str",
      [⟨tVoidPtr, "model"⟩, ⟨tInt32, "token"⟩]⟩,
    .decl ⟨tInt32, "llama_bridge_token_eos", [⟨tVoidPtr, "model"⟩]⟩,
    .decl ⟨tVoid, "llama_bridge_clear_kv_cache", [⟨tVoidPtr, "context"⟩]⟩,
    Line.ifdef "__cplusplus",
    .linkageEnd,
    .endif,
    .endif ]

/-! ## The interface table of the specification -/

/-- What an input stands for, in the words of the interface table. -/
inductive Role where
  | pathString
  | modelHandle
  | contextHandle
  | contextLength
  | threadCount
  | text
  | outputBuffer
  | bufferCapacity
  | addBosFlag
  | tokenArray
  | tokenCount
  | pastCount
  | tokenId
  deriving DecidableEq, Repr

/-- The form of an input or an output: nothing, a pointer (a handle), a
string, a 32-bit integer, a writable buffer of 32-bit integers, a read-only
array of 32-bit integers, a boolean. -/
inductive Shape where
  | nothing
  | pointer
  | string
  | int32
  | int32Buffer
  | int32ArrayReadOnly
  | boolean
  deriving DecidableEq, Repr

/-- One input of a table row: what it stands for and its form. -/
structure Input where
  role : Role
  shape : Shape
  deriving DecidableEq, Repr

/-- One row of the interface table: function, inputs in order, output. -/
structure TableRow where
  name : String
  inputs : List Input
  output : Shape
  deriving DecidableEq, Repr

/-- The external-interface table as the specification words it, row by row
and input by input: "path string"; "model handle, context length, thread
count"; "model handle, text, output buffer, buffer capacity, add-BOS flag";
"context handle, token array, token count, past-count"; "model handle, token
id".  Handles are pointers, lengths, counts, capacities and token ids are
32-bit integers, the flag is a boolean, the token array is read-only. -/
def interfaceTable : List TableRow :=
  [ ⟨"llama_bridge_backend_init", [], .nothing⟩,
    ⟨"llama_bridge_backend_free", [], .nothing⟩,
    ⟨"llama_bridge_load_model", [⟨.pathString, .string⟩], .pointer⟩,
    ⟨"llama_bridge_free_model", [⟨.modelHandle, .pointer⟩], .nothing⟩,
    ⟨"llama_bridge_create_context",
      [⟨.modelHandle, .pointer⟩, ⟨.contextLength, .int32⟩, ⟨.threadCount, .int32⟩],
      .pointer⟩,
    ⟨"llama_bridge_free_context", [⟨.contextHandle, .pointer⟩], .nothing⟩,
    ⟨"llama_bridge_tokenize",
      [⟨.modelHandle, .pointer⟩, ⟨.text, .string⟩, ⟨.outputBuffer, .int32Buffer⟩,
       ⟨.bufferCapacity, .int32⟩, ⟨.addBosFlag, .boolean⟩],
      .int32⟩,
    ⟨"llama_bridge_eval",
      [⟨.contextHandle, .pointer⟩, ⟨.tokenArray, .int32ArrayReadOnly⟩,
       ⟨.tokenCount, .int32⟩, ⟨.pastCount, .int32⟩],
      .int32⟩,
    ⟨"llama_bridge_sample_token", [⟨.contextHandle, .pointer⟩], .int32⟩,
    ⟨"llama_bridge_token_to_str", [⟨.modelHandle, .pointer⟩, ⟨.tokenId, .int32⟩], .string⟩,
    ⟨"llama_bridge_token_eos", [⟨.modelHandle, .pointer⟩], .int32⟩,
    ⟨"llama_bridge_clear_kv_cache", [⟨.contextHandle, .pointer⟩], .nothing⟩ ]

/-- What a declared parameter stands for.  The header says it through the
parameter's name only; the two parameters called `tokens` are told apart by
`const`. -/
def paramRole (p : Param) : Option Role :=
  if p.name = "model_path" then some .pathString
  else if p.name = "model" then some .modelHandle
  else if p.name = "context" then some .contextHandle
  else if p.name = "n_ctx" then some .contextLength
  else if p.name = "n_threads" then some .threadCount
  else if p.name = "text" then some .text
  else if p.name = "tokens" then
    if p.type.isConst then some .tokenArray else some .outputBuffer
  else if p.name = "n_max_tokens" then some .bufferCapacity
  else if p.name = "add_bos" then some .addBosFlag
  else if p.name = "n_tokens" then some .tokenCount
  else if p.name = "n_past" then some .pastCount
  else if p.name = "token" then some .tokenId
  else none

/-- The form of a declared type. -/
def typeShape (t : CType) : Option Shape :=
  if t = tVoid then some .nothing
  else if t = tVoidPtr then some .pointer
  else if t = tConstCharPtr then some .string
  else if t = tInt32 then some .int32
  else if t = tInt32Ptr then some .int32Buffer
  else if t = tConstInt32Ptr then some .int32ArrayReadOnly
  else if t = tBool then some .boolean
  else none

/-- The table input a declared parameter amounts to: its role, from its
name, and its form, from its type. -/
def paramInput (p : Param) : Option Input :=
  match paramRole p, typeShape p.type with
  | some r, some f => some ⟨r, f⟩
  | _, _ => none

/-- The table row a declaration amounts to, when every parameter has a role
and every type a form. -/
def signatureOf (d : FunDecl) : Option TableRow :=
  match d.params.mapM paramInput, typeShape d.ret with
  | some ins, some out => some ⟨d.name, ins, out⟩
  | _, _ => none

/-- The declared return type of the function called `name` in `llama_bridge.h`. -/
def returnTypeOf (name : String) : Option CType :=
  ((declaredFunctions llama_bridge_h).find? fun d => d.name = name).map (·.ret)

/-- A pointer type: it has a null value. -/
def CType.isPointer (t : CType) : Bool :=
  0 < t.stars

/-- The values a return type of this header can carry: an address for a
pointer (0 is the null pointer), a signed 32-bit integer for `int32_t`,
nothing for `void`. -/
def CType.admits (t : CType) (v : Int) : Bool :=
  if t.isPointer then 0 ≤ v
  else if t = tInt32 then -(2 ^ 31) ≤ v && v < 2 ^ 31
  else false

/-- The lead every bridge function name is meant to carry. -/
def nameLead : String := "llama_bridge_"

/-- Whether `s` starts with `nameLead`. -/
def hasLead (s : String) : Bool :=
  nameLead.toList.isPrefixOf s.toList

/-! ## The bridge behind the declarations

The implementation of the twelve declared functions (the Objective-C++ file
that forwards to the inference engine) is not among the sources.  The
definitions below follow the specification: sections 3 (data model), 4.2-4.5
(component design) and 7 (error taxonomy).  Handles are numbers and 0 is the
null pointer.  A call the specification leaves undefined (a handle that is not
a live object of the right kind, a count that does not describe the array or
the cache it comes with) yields `none`.
-/

/-- Modelled from the spec: an opaque handle (`void*`); the implementation
that issues handles is missing.  0 is null. -/
abbrev Handle := Nat

/-- Modelled from the spec: the state behind a model handle, "loaded
weight/vocabulary state for one model file"; the engine that builds it is
missing.  Only the vocabulary is kept: the tokenizer, and the ids of the
beginning-of-sequence and end-of-sequence markers. -/
structure ModelState where
  encode : String → List Int
  bos : Int
  eos : Int

/-- Modelled from the spec: the state behind a context handle, "per-session
state (token history length, working buffers) for one inference session over a
given model", created "from a model handle plus two integers: maximum context
length and thread count"; the implementation is missing.  `history` holds the
tokens represented in the cache, by position. -/
structure ContextState where
  model : Handle
  n_ctx : Int
  n_threads : Int
  history : List Int
  deriving DecidableEq, Repr

/-- Modelled from the spec: what `llama_bridge_load_model` reads from, the
file system (`none`: file not found) and the engine's model-format reader
(`none`: malformed format); both are missing from the sources. -/
structure Engine where
  readFile : String → Option (List Nat)
  parseModel : List Nat → Option ModelState

/-- Modelled from the spec: the live objects of the bridge, the last handle
issued, and how many further allocations succeed ("null-pointer-return for
allocation/load failure"); the implementation is missing. -/
structure Bridge where
  models : List (Handle × ModelState)
  contexts : List (Handle × ContextState)
  lastHandle : Nat
  freeSlots : Nat

/-- Modelled from the spec: `llama_bridge_load_model`, whose body is missing.
"Reads a model file from a caller-supplied filesystem path and returns an
opaque handle, or a null result on failure (e.g., file not found, malformed
format).  Side effect: allocates and retains in-memory weight/vocabulary state
until freed." -/
def llama_bridge_load_model (e : Engine) (s : Bridge) (model_path : String) :
    Handle × Bridge :=
  match e.readFile model_path with
  | none => (0, s)
  | some bytes =>
    match e.parseModel bytes with
    | none => (0, s)
    | some m =>
      if s.freeSlots = 0 then (0, s)
      else
        let h := s.lastHandle + 1
        (h, { s with models := (h, m) :: s.models, lastHandle := h,
                     freeSlots := s.freeSlots - 1 })

/-- The value an `int32_t` parameter takes for an integer argument: the
argument wrapped to 32 bits, two's complement. -/
def toInt32 (v : Int) : Int :=
  (v + 2 ^ 31) % 2 ^ 32 - 2 ^ 31

/-- Modelled from the spec: `llama_bridge_create_context`, whose body is
missing.  "Given a valid model handle, a positive maximum context length, and
a thread count, allocates a session handle sized for up to `n_ctx` tokens of
history.  Returns null on allocation failure or invalid model handle."  The
two integers are `int32_t`. -/
def llama_bridge_create_context (s : Bridge) (model : Handle) (n_ctx n_threads : Int) :
    Handle × Bridge :=
  if model = 0 then (0, s)
  else
    match s.models.lookup model with
    | none => (0, s)
    | some _ =>
      if s.freeSlots = 0 then (0, s)
      else
        let h := s.lastHandle + 1
        (h, { s with contexts := (h, ⟨model, toInt32 n_ctx, toInt32 n_threads, []⟩) :: s.contexts,
                     lastHandle := h, freeSlots := s.freeSlots - 1 })

/-- Modelled from the spec: the full tokenization of a text, "a sequence of
integer token identifiers ... optionally prefixing a beginning-of-sequence
marker"; the tokenizer itself belongs to the engine and is missing. -/
def fullTokenization (m : ModelState) (text : String) (add_bos : Bool) : List Int :=
  (if add_bos then [m.bos] else []) ++ m.encode text

/-- Modelled from the spec: `llama_bridge_tokenize`, whose body is missing.
"Returns the number of tokens written, or a negative value if the output
buffer was too small to hold the full tokenization (signaling required
capacity rather than silently truncating)."  `tokens` is the caller's buffer;
the result is the returned integer and the buffer afterwards.  The negative
value is minus the required capacity. -/
def llama_bridge_tokenize (s : Bridge) (model : Handle) (text : String)
    (tokens : List Int) (n_max_tokens : Int) (add_bos : Bool) :
    Option (Int × List Int) :=
  match s.models.lookup model with
  | none => none
  | some m =>
    let full := fullTokenization m text add_bos
    if n_max_tokens < full.length then some (-(full.length : Int), tokens)
    else some ((full.length : Int), full ++ tokens.drop full.length)

/-- A toy vocabulary for evaluating the bridge on concrete inputs: one token
per character, the character code. -/
def toyModel : ModelState :=
  { encode := fun t => t.toList.map fun c => (c.toNat : Int), bos := 1, eos := 2 }

/-- A toy engine: one readable, well-formed file `tiny.gguf`, one readable
but malformed file `broken.gguf`, nothing else. -/
def toyEngine : Engine :=
  { readFile := fun p =>
      if p = "tiny.gguf" then some [1] else if p = "broken.gguf" then some [0] else none,
    parseModel := fun b => if b = [1] then some toyModel else none }

/-- An empty bridge with room for four objects. -/
def emptyBridge : Bridge :=
  { models := [], contexts := [], lastHandle := 0, freeSlots := 4 }

/-- The bridge after loading `tiny.gguf` into the empty bridge: the model has
handle 1. -/
def loadedBridge : Bridge :=
  (llama_bridge_load_model toyEngine emptyBridge "tiny.gguf").2

end LlamaSwiftC

/-! # Theorems -/

namespace LlamaSwiftC

/-! ## Preprocessor lemmas -/

theorem body_emit (st : PPState) (l : Line) (n : String) :
    (st.emit l).body n = st.body n := rfl

theorem body_addDefine (st : PPState) (m n : String) (b : List PPToken) :
    (st.addDefine m b).body n = if n = m then some b else st.body n := by
  simp only [PPState.body, PPState.addDefine, List.lookup]
  by_cases h : n = m
  · subst h; simp
  · have : (n == m) = false := by simpa using h
    simp [h, this]

theorem isDefined_emit (st : PPState) (l : Line) (n : String) :
    (st.emit l).isDefined n = st.isDefined n := rfl

theorem isDefined_addDefine (st : PPState) (m n : String) (b : List PPToken) :
    (st.addDefine m b).isDefined n = (decide (n = m) || st.isDefined n) := by
  simp only [PPState.isDefined, body_addDefine]
  by_cases h : n = m <;> simp [h]

theorem body_eq_none_of_isDefined_false (st : PPState) (n : String)
    (h : st.isDefined n = false) : st.body n = none := by
  unfold PPState.isDefined at h
  cases hb : st.body n with
  | none => rfl
  | some b => rw [hb] at h; exact Bool.noConfusion h

/-- With its guard already defined, `ggml-build-info.h` is skipped whole. -/
theorem ggml_skip (inc : String → PPState → PPState) (st : PPState)
    (h : st.isDefined "GGML_BUILD_INFO_H" = true) :
    preprocess inc ggml_build_info_h st = st := by
  simp [preprocess, ggml_build_info_h, ppStep, isActive, h]

/-- With its guard already defined, `llama_bridge.h` is skipped whole. -/
theorem bridge_skip (inc : String → PPState → PPState) (st : PPState)
    (h : st.isDefined "llama_bridge_h" = true) :
    preprocess inc llama_bridge_h st = st := by
  simp [preprocess, llama_bridge_h, ppStep, isActive, h]

/-- The three definitions in force after a pass over `ggml-build-info.h` that
found the guard undefined. -/
theorem ggml_first_body (inc : String → PPState → PPState) (st : PPState)
    (h : st.isDefined "GGML_BUILD_INFO_H" = false) :
    (preprocess inc ggml_build_info_h st).body "GGML_BUILD_INFO_H" = some [] ∧
    (preprocess inc ggml_build_info_h st).body "GGML_VERSION"
        = some ((st.body "GGML_VERSION").getD [.stringLit "1.0.0"]) ∧
    (preprocess inc ggml_build_info_h st).body "GGML_COMMIT"
        = some ((st.body "GGML_COMMIT").getD [.stringLit "unknown"]) := by
  simp only [preprocess, ggml_build_info_h, List.foldl, ppStep, isActive, h]
  cases hv : st.body "GGML_VERSION" <;> cases hc : st.body "GGML_COMMIT" <;>
    simp [PPState.isDefined, hv, hc, body_addDefine]

/-- A pass over `llama_bridge.h` that found the guard undefined leaves it
defined, provided the included system headers do not undefine it. -/
theorem bridge_first_defined (inc : String → PPState → PPState)
    (hinc : ∀ h st, st.isDefined "llama_bridge_h" = true →
      (inc h st).isDefined "llama_bridge_h" = true)
    (st : PPState) (h : st.isDefined "llama_bridge_h" = false) :
    (preprocess inc llama_bridge_h st).isDefined "llama_bridge_h" = true := by
  have h2 : (inc "stdint.h" (inc "stdbool.h" (st.addDefine "llama_bridge_h" []))).isDefined
      "llama_bridge_h" = true := by
    apply hinc; apply hinc; simp [isDefined_addDefine]
  simp only [preprocess, llama_bridge_h, List.foldl_cons, List.foldl_nil, ppStep, isActive,
    List.headD_cons, List.headD_nil, List.tail_cons, h, Bool.not_false, Bool.and_true,
    Bool.true_and, if_true]
  cases hc : (inc "stdint.h" (inc "stdbool.h" (st.addDefine "llama_bridge_h" []))).isDefined
      "__cplusplus" <;>
    simp [hc, isDefined_emit, h2]

/-- On a first pass with no definitions in force, the lines emitted by
`llama_bridge.h` carry exactly the declarations written in it. -/
theorem bridge_first_pass_declarations :
    declaredFunctions (preprocess noInclude llama_bridge_h ⟨[], []⟩).output
      = declaredFunctions llama_bridge_h := by
  decide

/-! ## The declarations of `llama_bridge.h` -/

/-- C1: the functions declared by `llama_bridge.h` are exactly the twelve
functions of the interface table: the declared names are the table's names (in
the table's order), a name is declared if and only if it is in the table, no
name is declared twice, and there are twelve of them. -/
theorem declared_functions_are_the_table :
    declaredNames llama_bridge_h = interfaceTable.map (·.name) ∧
    (∀ n, n ∈ declaredNames llama_bridge_h ↔ n ∈ interfaceTable.map (·.name)) ∧
    (declaredNames llama_bridge_h).Nodup ∧
    (declaredNames llama_bridge_h).length = 12 := by
  have h : declaredNames llama_bridge_h = interfaceTable.map (·.name) := by decide
  refine ⟨h, fun n => by rw [h], by decide, by decide⟩

/-- C2: every row of the interface table has a declaration in `llama_bridge.h`
with the row's name whose parameters, read in order, stand for what the row
lists (by their names) and have the forms the row lists (by their types), and
whose return type has the row's output form; and the declarations, read in
order, are the rows of the table. -/
theorem declarations_match_table :
    (∀ row ∈ interfaceTable, ∃ d ∈ declaredFunctions llama_bridge_h,
      d.name = row.name ∧ d.params.mapM paramInput = some row.inputs ∧
      typeShape d.ret = some row.output) ∧
    (declaredFunctions llama_bridge_h).map signatureOf = interfaceTable.map some := by
  constructor <;> decide

/-- C3: `llama_bridge_load_model` and `llama_bridge_create_context` return a
pointer type, which admits the null value 0; `llama_bridge_tokenize` returns
`int32_t`, which admits a negative value; `llama_bridge_eval` returns
`int32_t`, which admits a non-zero value; the two backend functions, the two
free functions and `llama_bridge_clear_kv_cache` return `void`. -/
theorem failures_representable :
    (∀ n ∈ ["llama_bridge_load_model", "llama_bridge_create_context"],
      ∃ t, returnTypeOf n = some t ∧ t.isPointer = true ∧ t.admits 0 = true) ∧
    (returnTypeOf "llama_bridge_tokenize" = some tInt32 ∧
      ∃ v : Int, v < 0 ∧ tInt32.admits v = true) ∧
    (returnTypeOf "llama_bridge_eval" = some tInt32 ∧
      ∃ v : Int, v ≠ 0 ∧ tInt32.admits v = true) ∧
    (∀ n ∈ ["llama_bridge_backend_init", "llama_bridge_backend_free",
        "llama_bridge_free_model", "llama_bridge_free_context",
        "llama_bridge_clear_kv_cache"],
      returnTypeOf n = some tVoid) := by
  refine ⟨?_, ⟨by decide, -1, by decide, by decide⟩, ⟨by decide, 1, by decide, by decide⟩,
    by decide⟩
  intro n hn
  simp only [List.mem_cons, List.mem_singleton, List.not_mem_nil, or_false] at hn
  rcases hn with rfl | rfl <;> exact ⟨tVoidPtr, by decide, by decide, by decide⟩

/-- C9: every function name declared by `llama_bridge.h` starts with
`llama_bridge_`, so a name that does not start with it is not declared. -/
theorem declared_names_carry_lead :
    (∀ n ∈ declaredNames llama_bridge_h, hasLead n = true) ∧
    (∀ other : String, hasLead other = false → other ∉ declaredNames llama_bridge_h) := by
  have h : ∀ n ∈ declaredNames llama_bridge_h, hasLead n = true := by decide
  refine ⟨h, fun other ho hmem => ?_⟩
  rw [h other hmem] at ho
  exact Bool.noConfusion ho

/-! ## `ggml-build-info.h`: defaults and overrides -/

/-- C7, as stated, fails: starting with `GGML_BUILD_INFO_H` defined and
neither `GGML_VERSION` nor `GGML_COMMIT` defined, the header is skipped by its
guard and both stay undefined. -/
theorem ggml_defaults_need_open_guard :
    ¬ ∀ st : PPState,
      (st.isDefined "GGML_VERSION" = false → st.isDefined "GGML_COMMIT" = false →
        (preprocess noInclude ggml_build_info_h st).body "GGML_VERSION"
            = some [.stringLit "1.0.0"] ∧
        (preprocess noInclude ggml_build_info_h st).body "GGML_COMMIT"
            = some [.stringLit "unknown"]) ∧
      (preprocess noInclude ggml_build_info_h st).isDefined "GGML_VERSION" = true ∧
      (preprocess noInclude ggml_build_info_h st).isDefined "GGML_COMMIT" = true := by
  intro h
  have h0 := (h ⟨[("GGML_BUILD_INFO_H", [])], []⟩).2.1
  revert h0
  decide

/-- C7, amended: when `GGML_BUILD_INFO_H` is not defined before
`ggml-build-info.h` is processed, then if neither `GGML_VERSION` nor
`GGML_COMMIT` is defined before, afterwards `GGML_VERSION` is the string
"1.0.0" and `GGML_COMMIT` is the string "unknown"; and in every such case both
are defined afterwards. -/
theorem ggml_defaults_on_first_pass (inc : String → PPState → PPState) (st : PPState)
    (hguard : st.isDefined "GGML_BUILD_INFO_H" = false) :
    (st.isDefined "GGML_VERSION" = false → st.isDefined "GGML_COMMIT" = false →
      (preprocess inc ggml_build_info_h st).body "GGML_VERSION"
          = some [.stringLit "1.0.0"] ∧
      (preprocess inc ggml_build_info_h st).body "GGML_COMMIT"
          = some [.stringLit "unknown"]) ∧
    (preprocess inc ggml_build_info_h st).isDefined "GGML_VERSION" = true ∧
    (preprocess inc ggml_build_info_h st).isDefined "GGML_COMMIT" = true := by
  obtain ⟨-, hv, hc⟩ := ggml_first_body inc st hguard
  refine ⟨fun h1 h2 => ?_, ?_, ?_⟩
  · rw [hv, hc, body_eq_none_of_isDefined_false st _ h1,
      body_eq_none_of_isDefined_false st _ h2]
    exact ⟨rfl, rfl⟩
  · simp [PPState.isDefined, hv]
  · simp [PPState.isDefined, hc]

/-- The amended C7 at the empty starting state. -/
theorem ggml_defaults_on_first_pass_witness :
    (PPState.isDefined ⟨[], []⟩ "GGML_VERSION" = false →
      PPState.isDefined ⟨[], []⟩ "GGML_COMMIT" = false →
      (preprocess noInclude ggml_build_info_h ⟨[], []⟩).body "GGML_VERSION"
          = some [.stringLit "1.0.0"] ∧
      (preprocess noInclude ggml_build_info_h ⟨[], []⟩).body "GGML_COMMIT"
          = some [.stringLit "unknown"]) ∧
    (preprocess noInclude ggml_build_info_h ⟨[], []⟩).isDefined "GGML_VERSION" = true ∧
    (preprocess noInclude ggml_build_info_h ⟨[], []⟩).isDefined "GGML_COMMIT" = true :=
  ggml_defaults_on_first_pass noInclude ⟨[], []⟩ (by decide)

/-- C8, as stated, fails: starting with `GGML_BUILD_INFO_H` defined and only
`GGML_VERSION` overridden, the header is skipped by its guard and
`GGML_COMMIT` does not get its fallback default. -/
theorem ggml_independence_needs_open_guard :
    ¬ ∀ st : PPState,
      (∀ v, st.body "GGML_VERSION" = some v →
        (preprocess noInclude ggml_build_info_h st).body "GGML_VERSION" = some v) ∧
      (∀ v, st.body "GGML_COMMIT" = some v →
        (preprocess noInclude ggml_build_info_h st).body "GGML_COMMIT" = some v) ∧
      (st.isDefined "GGML_VERSION" = true → st.isDefined "GGML_COMMIT" = false →
        (preprocess noInclude ggml_build_info_h st).body "GGML_COMMIT"
            = some [.stringLit "unknown"]) ∧
      (st.isDefined "GGML_COMMIT" = true → st.isDefined "GGML_VERSION" = false →
        (preprocess noInclude ggml_build_info_h st).body "GGML_VERSION"
            = some [.stringLit "1.0.0"]) := by
  intro h
  have h0 := (h ⟨[("GGML_BUILD_INFO_H", []), ("GGML_VERSION", [.stringLit "2.3.4"])], []⟩).2.2.1
  revert h0
  decide

/-- C8, amended: for every value defined for `GGML_VERSION`, or for
`GGML_COMMIT`, before `ggml-build-info.h` is processed, the header leaves that
value unchanged; and when `GGML_BUILD_INFO_H` is not defined before, overriding
only one of the two still gives the other its fallback default. -/
theorem ggml_overrides_kept (inc : String → PPState → PPState) (st : PPState) :
    (∀ v, st.body "GGML_VERSION" = some v →
      (preprocess inc ggml_build_info_h st).body "GGML_VERSION" = some v) ∧
    (∀ v, st.body "GGML_COMMIT" = some v →
      (preprocess inc ggml_build_info_h st).body "GGML_COMMIT" = some v) ∧
    (st.isDefined "GGML_BUILD_INFO_H" = false →
      (st.isDefined "GGML_VERSION" = true → st.isDefined "GGML_COMMIT" = false →
        (preprocess inc ggml_build_info_h st).body "GGML_COMMIT"
            = some [.stringLit "unknown"]) ∧
      (st.isDefined "GGML_COMMIT" = true → st.isDefined "GGML_VERSION" = false →
        (preprocess inc ggml_build_info_h st).body "GGML_VERSION"
            = some [.stringLit "1.0.0"])) := by
  cases hg : st.isDefined "GGML_BUILD_INFO_H"
  · obtain ⟨-, hv, hc⟩ := ggml_first_body inc st hg
    refine ⟨fun v h => by rw [hv, h]; rfl, fun v h => by rw [hc, h]; rfl, fun _ => ⟨?_, ?_⟩⟩
    · intro _ h2
      rw [hc, body_eq_none_of_isDefined_false st _ h2]; rfl
    · intro _ h2
      rw [hv, body_eq_none_of_isDefined_false st _ h2]; rfl
  · rw [ggml_skip inc st hg]
    exact ⟨fun v h => h, fun v h => h, fun h => Bool.noConfusion h⟩

/-- The amended C8 with only `GGML_VERSION` overridden, as "2.3.4". -/
theorem ggml_overrides_kept_witness :
    (preprocess noInclude ggml_build_info_h
        ⟨[("GGML_VERSION", [.stringLit "2.3.4"])], []⟩).body "GGML_VERSION"
      = some [.stringLit "2.3.4"] ∧
    (preprocess noInclude ggml_build_info_h
        ⟨[("GGML_VERSION", [.stringLit "2.3.4"])], []⟩).body "GGML_COMMIT"
      = some [.stringLit "unknown"] :=
  have h := ggml_overrides_kept noInclude ⟨[("GGML_VERSION", [.stringLit "2.3.4"])], []⟩
  ⟨h.1 _ (by decide), (h.2.2 (by decide)).1 (by decide) (by decide)⟩

/-! ## Include guards -/

/-- C10: processing `ggml-build-info.h` twice in a row gives the same state
(definitions and emitted lines) as processing it once, from every starting
state; and so does `llama_bridge.h`, whatever the included system headers do
as long as they do not undefine `llama_bridge_h`.  For each header, a pass
that starts with the guard (`GGML_BUILD_INFO_H`, `llama_bridge_h`) defined
changes nothing, and the guard is defined after any pass. -/
theorem include_guards_idempotent :
    (∀ (inc : String → PPState → PPState) (st : PPState),
      (st.isDefined "GGML_BUILD_INFO_H" = true → preprocess inc ggml_build_info_h st = st) ∧
      (preprocess inc ggml_build_info_h st).isDefined "GGML_BUILD_INFO_H" = true ∧
      preprocess inc ggml_build_info_h (preprocess inc ggml_build_info_h st)
        = preprocess inc ggml_build_info_h st) ∧
    (∀ (inc : String → PPState → PPState),
      (∀ h st, st.isDefined "llama_bridge_h" = true →
        (inc h st).isDefined "llama_bridge_h" = true) →
      ∀ st : PPState,
        (st.isDefined "llama_bridge_h" = true → preprocess inc llama_bridge_h st = st) ∧
        (preprocess inc llama_bridge_h st).isDefined "llama_bridge_h" = true ∧
        preprocess inc llama_bridge_h (preprocess inc llama_bridge_h st)
          = preprocess inc llama_bridge_h st) := by
  constructor
  · intro inc st
    have hdef : (preprocess inc ggml_build_info_h st).isDefined "GGML_BUILD_INFO_H" = true := by
      cases hg : st.isDefined "GGML_BUILD_INFO_H"
      · simp [PPState.isDefined, (ggml_first_body inc st hg).1]
      · rw [ggml_skip inc st hg, hg]
    exact ⟨ggml_skip inc st, hdef, ggml_skip inc _ hdef⟩
  · intro inc hinc st
    have hdef : (preprocess inc llama_bridge_h st).isDefined "llama_bridge_h" = true := by
      cases hg : st.isDefined "llama_bridge_h"
      · exact bridge_first_defined inc hinc st hg
      · rw [bridge_skip inc st hg, hg]
    exact ⟨bridge_skip inc st, hdef, bridge_skip inc _ hdef⟩

/-- C10 at the empty starting state, in C++ mode, with the stand-in system
headers. -/
theorem include_guards_idempotent_witness :
    preprocess toyInclude llama_bridge_h
        (preprocess toyInclude llama_bridge_h ⟨[("__cplusplus", [.other "201703L"])], []⟩)
      = preprocess toyInclude llama_bridge_h ⟨[("__cplusplus", [.other "201703L"])], []⟩ :=
  (include_guards_idempotent.2 toyInclude
    (fun h st hst => by
      unfold toyInclude
      split
      · rw [isDefined_addDefine, hst, Bool.or_true]
      · exact hst)
    _).2.2

/-! ## The bridge: failure reporting -/

/-- C4: on a loaded model and a buffer of `n_max_tokens` slots, when the full
tokenization has more tokens than `n_max_tokens`, `llama_bridge_tokenize`
returns a negative value and leaves the buffer as it was; when it fits, it
returns the number of tokens, which is between 0 and `n_max_tokens`, and the
buffer starts with exactly those tokens. -/
theorem tokenize_reports_capacity (s : Bridge) (model : Handle) (m : ModelState)
    (text : String) (tokens : List Int) (n_max_tokens : Int) (add_bos : Bool)
    (hmodel : s.models.lookup model = some m)
    (hbuf : n_max_tokens = tokens.length) :
    (n_max_tokens < (fullTokenization m text add_bos).length →
      ∃ r : Int, r < 0 ∧
        llama_bridge_tokenize s model text tokens n_max_tokens add_bos = some (r, tokens)) ∧
    (((fullTokenization m text add_bos).length : Int) ≤ n_max_tokens →
      ∃ (r : Int) (buf : List Int),
        llama_bridge_tokenize s model text tokens n_max_tokens add_bos = some (r, buf) ∧
        0 ≤ r ∧ r ≤ n_max_tokens ∧ r = (fullTokenization m text add_bos).length ∧
        buf.take r.toNat = fullTokenization m text add_bos ∧
        buf.length = tokens.length) := by
  constructor
  · intro hsmall
    refine ⟨-((fullTokenization m text add_bos).length : Int), ?_, ?_⟩
    · omega
    · simp [llama_bridge_tokenize, hmodel, hsmall]
  · intro hfits
    refine ⟨(fullTokenization m text add_bos).length,
      fullTokenization m text add_bos ++ tokens.drop (fullTokenization m text add_bos).length,
      ?_, by omega, hfits, rfl, ?_, ?_⟩
    · have : ¬ n_max_tokens < (fullTokenization m text add_bos).length := by omega
      simp [llama_bridge_tokenize, hmodel, this]
    · simp
    · simp only [List.length_append, List.length_drop]
      omega

/-- C4 on the toy model: "hello" has five tokens; a four-slot buffer gets a
negative value, a five-slot buffer gets 5. -/
theorem tokenize_reports_capacity_witness :
    (∃ r : Int, r < 0 ∧
      llama_bridge_tokenize loadedBridge 1 "hello" [0, 0, 0, 0] 4 false
        = some (r, [0, 0, 0, 0])) :=
  (tokenize_reports_capacity loadedBridge 1 toyModel "hello" [0, 0, 0, 0] 4 false rfl
    (by decide)).1 (by decide)

/-- C6: for a path whose file is not found or is malformed,
`llama_bridge_load_model` returns null and changes nothing;
`llama_bridge_create_context` on a null handle, or on a handle that is not a
loaded model, returns null and changes nothing; so no context is created from
the result of loading an invalid path. -/
theorem invalid_model_gives_null (e : Engine) (s : Bridge) :
    (∀ path : String,
      (e.readFile path = none ∨
        ∃ bytes, e.readFile path = some bytes ∧ e.parseModel bytes = none) →
      (llama_bridge_load_model e s path).1 = 0 ∧
      (llama_bridge_load_model e s path).2.models = s.models ∧
      ∀ n_ctx n_threads,
        (llama_bridge_create_context (llama_bridge_load_model e s path).2
          (llama_bridge_load_model e s path).1 n_ctx n_threads).1 = 0) ∧
    (∀ (model : Handle) (n_ctx n_threads : Int),
      (model = 0 ∨ s.models.lookup model = none) →
      (llama_bridge_create_context s model n_ctx n_threads).1 = 0 ∧
      (llama_bridge_create_context s model n_ctx n_threads).2.contexts = s.contexts) := by
  constructor
  · intro path hbad
    have hload : llama_bridge_load_model e s path = (0, s) := by
      unfold llama_bridge_load_model
      rcases hbad with h | ⟨bytes, h1, h2⟩
      · simp [h]
      · simp [h1, h2]
    rw [hload]
    exact ⟨rfl, rfl, fun _ _ => by simp [llama_bridge_create_context]⟩
  · intro model n_ctx n_threads hbad
    unfold llama_bridge_create_context
    rcases hbad with h | h
    · simp [h]
    · by_cases h0 : model = 0
      · simp [h0]
      · simp [h0, h]

/-- C6 on the toy engine: `missing.gguf` does not exist, `broken.gguf` is
malformed, and handle 7 is not a loaded model of the empty bridge. -/
theorem invalid_model_gives_null_witness :
    (llama_bridge_load_model toyEngine emptyBridge "missing.gguf").1 = 0 ∧
    (llama_bridge_load_model toyEngine emptyBridge "broken.gguf").1 = 0 ∧
    (llama_bridge_create_context emptyBridge 7 16 4).1 = 0 :=
  ⟨((invalid_model_gives_null toyEngine emptyBridge).1 "missing.gguf"
      (Or.inl (by decide))).1,
   ((invalid_model_gives_null toyEngine emptyBridge).1 "broken.gguf"
      (Or.inr ⟨[0], by decide, rfl⟩)).1,
   ((invalid_model_gives_null toyEngine emptyBridge).2 7 16 4 (Or.inr rfl)).1⟩

end LlamaSwiftC
